import Mathlib

/-!
Shallow embedding of `src/main.rs` of keifufu/dimland: the single-instance
daemon control plane (argument record, merge semantics, socket path, IPC
message handling) and the per-output view lifecycle (configure events,
output hotplug, render loop).  Machine floats of the source (`f32`) are
modelled as exact rationals; `u32` as naturals; filesystem and socket
effects as explicit record fields.
-/

namespace Dimland

/-- The `DimlandCommands` subcommand enum of the source: only `Stop`. -/
inductive DimlandCommands where
  | Stop
deriving DecidableEq, Repr

/-- The `DimlandArgs` clap argument record of the source.  `alpha : Option<f32>`
is modelled as `Option ℚ`, `radius : Option<u32>` as `Option ℕ`. -/
structure DimlandArgs where
  alpha : Option ℚ
  allow_opaque : Bool
  radius : Option ℕ
  output : Option String
  command : Option DimlandCommands
  detached : Bool
deriving DecidableEq, Repr

/-- `DEFAULT_ALPHA: f32 = 0.5`. -/
def DEFAULT_ALPHA : ℚ := 1/2

/-- `DEFAULT_RADIUS: u32 = 0`. -/
def DEFAULT_RADIUS : ℕ := 0

/-- The initial value of the `ARGS` lazy static: defaults seeded at first
instantiation. -/
def initialArgs : DimlandArgs :=
  { alpha := some DEFAULT_ALPHA, allow_opaque := false,
    radius := some DEFAULT_RADIUS, output := none, command := none,
    detached := false }

/-- `set_args` of the source, as a function from the stored record and the
incoming update to the new stored record.  Mirrors the body line by line:
`alpha` present → clamped to 0.9 unless the update's `allow_opaque` is set,
then stored; `radius` present → stored; absent `alpha`/`radius` keep the
previous value; `output`, `command`, `detached` are always overwritten by the
incoming values.  (The stored `allow_opaque` field itself is never written,
exactly as in the source.) -/
def set_args (stored update : DimlandArgs) : DimlandArgs :=
  let s1 :=
    match update.alpha with
    | some a =>
      let a2 := if update.allow_opaque then a else if a > 9/10 then 9/10 else a
      { stored with alpha := some a2 }
    | none => stored
  let s2 :=
    match update.radius with
    | some r => { s1 with radius := some r }
    | none => s1
  { s2 with output := update.output, command := update.command,
            detached := update.detached }

/-- `get_socket_path` of the source: reads `XDG_RUNTIME_DIR` and appends
`/dimland.sock`; when the variable is absent the `expect` panics with
"XDG_RUNTIME_DIR not set" (modelled as `Except.error`). -/
def get_socket_path (xdgRuntimeDir : Option String) : Except String String :=
  match xdgRuntimeDir with
  | some dir => Except.ok (dir ++ "/dimland.sock")
  | none => Except.error "XDG_RUNTIME_DIR not set"

/-- The forwarded IPC message built in `main` when the startup probe's connect
succeeds: `env::args().collect::<Vec<String>>().join(" ")` — the full current
command line joined by single spaces, with nothing appended. -/
def forwardMessage (argv : List String) : String :=
  String.intercalate " " argv

/-- Outcome of the forward-to-daemon branch of `main` (connect succeeded,
command is not `Stop`). -/
structure ForwardResult where
  sentMessage : String
  diagnostic : Option String
  exitCode : ℕ
deriving DecidableEq, Repr

/-- The forward-to-daemon branch of `main`: send the joined command line;
on write failure print "Error sending IPC message" to stderr; in both cases
`process::exit(0)`. -/
def forwardToDaemon (argv : List String) (writeOk : Bool) : ForwardResult :=
  { sentMessage := forwardMessage argv,
    diagnostic := if writeOk then none else some "Error sending IPC message",
    exitCode := 0 }

/-- Numeric value of a digit list (most significant first). -/
def digitsVal (l : List Char) : ℕ :=
  l.foldl (fun n c => n * 10 + (c.toNat - 48)) 0

/-- Rust `u32::from_str` as used by clap for `--radius`: optional leading `+`,
then decimal digits, rejecting values outside the `u32` range. -/
def parseU32 (s : String) : Option ℕ :=
  let body := match s.data with
    | '+' :: cs => cs
    | cs => cs
  if body ≠ [] ∧ body.all Char.isDigit then
    let n := digitsVal body
    if n < 2 ^ 32 then some n else none
  else none

/-- Split a character list at every `.` (semantics of Rust/Lean split on a
single-character separator: `n` separators yield `n + 1` pieces). -/
def splitDot : List Char → List (List Char)
  | [] => [[]]
  | c :: cs =>
    if c = '.' then [] :: splitDot cs else
      match splitDot cs with
      | [] => [[c]]
      | w :: ws => (c :: w) :: ws

/-- Rust `f32::from_str` as used by clap for `--alpha`, modelled over ℚ for the
plain decimal forms (optional sign, digits, optional point and digits, digits
on at least one side).  Exponent/`inf`/`NaN` forms and `f32` rounding are not
modelled: such inputs count as parse failures. -/
def parseF32 (s : String) : Option ℚ :=
  let signBody : ℚ × List Char :=
    match s.data with
    | '-' :: cs => (-1, cs)
    | '+' :: cs => (1, cs)
    | cs => (1, cs)
  let sign := signBody.1
  match splitDot signBody.2 with
  | [ip] =>
    if ip ≠ [] ∧ ip.all Char.isDigit then
      some (sign * digitsVal ip)
    else none
  | [ip, fp] =>
    if (ip ≠ [] ∨ fp ≠ []) ∧ ip.all Char.isDigit ∧ fp.all Char.isDigit then
      some (sign * ((digitsVal ip : ℚ) + (digitsVal fp : ℚ) / 10 ^ fp.length))
    else none
  | _ => none

/-- The update a parse starts from: every clap field at its derive default
(`None` options, `false` flags). -/
def emptyUpdate : DimlandArgs :=
  { alpha := none, allow_opaque := false, radius := none, output := none,
    command := none, detached := false }

/-- The clap derive parser for `DimlandArgs` over an argument list (program
name already removed), modelled for the space-separated token forms the IPC
path produces: `-a` or `--alpha` with an f32 value, `--allow-opaque`, `-r` or
`--radius` with a u32 value, `-o` or `--output` with a string value, `-d` or
`--detached`, subcommand `stop` (which takes no
further arguments).  Anything else — unknown tokens, a flag missing its
value, an unparseable value, `--help`/`--version` — is a parse error
(`none`), exactly what the source's `match ... Ok => ... _ => ()` drops. -/
def parseTokens : List String → DimlandArgs → Option DimlandArgs
  | [], acc => some acc
  | t :: rest, acc =>
    if t = "stop" then
      match rest with
      | [] => some { acc with command := some DimlandCommands.Stop }
      | _ :: _ => none
    else if t = "-a" ∨ t = "--alpha" then
      match rest with
      | v :: rest2 =>
        match parseF32 v with
        | some q => parseTokens rest2 { acc with alpha := some q }
        | none => none
      | [] => none
    else if t = "--allow-opaque" then
      parseTokens rest { acc with allow_opaque := true }
    else if t = "-r" ∨ t = "--radius" then
      match rest with
      | v :: rest2 =>
        match parseU32 v with
        | some n => parseTokens rest2 { acc with radius := some n }
        | none => none
      | [] => none
    else if t = "-o" ∨ t = "--output" then
      match rest with
      | v :: rest2 => parseTokens rest2 { acc with output := some v }
      | [] => none
    else if t = "-d" ∨ t = "--detached" then
      parseTokens rest { acc with detached := true }
    else none

/-- `DimlandArgs::try_parse_from(args)` of the source: clap consumes the first
element of the vector as the program name and parses the rest. -/
def try_parse_from (argv : List String) : Option DimlandArgs :=
  match argv with
  | [] => parseTokens [] emptyUpdate
  | _prog :: rest => parseTokens rest emptyUpdate

/-- Split a character list into its maximal whitespace-free words (the
accumulator holds the current word reversed). -/
def splitWsAux : List Char → List Char → List (List Char)
  | [], acc => if acc.isEmpty then [] else [acc.reverse]
  | c :: cs, acc =>
    if c.isWhitespace then
      if acc.isEmpty then splitWsAux cs [] else acc.reverse :: splitWsAux cs []
    else splitWsAux cs (c :: acc)

/-- `message.trim().split_whitespace()` of `handle_ipc`: the non-empty
whitespace-separated words of the message (Rust's `split_whitespace` never
yields empty pieces, and the preceding `trim` is absorbed by it). -/
def tokenize (message : String) : List String :=
  (splitWsAux message.data []).map String.mk

/-- Daemon-side state touched by the listener thread: the `ARGS` store, the
`FLAG` latch, and whether the endpoint socket file exists. -/
structure DaemonState where
  args : DimlandArgs
  flag : Bool
  socketExists : Bool
deriving DecidableEq, Repr

/-- Effect of handling one connection: the successor state, the exit code if
`process::exit` ran, and how many waiters `cvar.notify_one` woke. -/
structure IpcStep where
  state : DaemonState
  exited : Option ℕ
  notified : ℕ
deriving DecidableEq, Repr

/-- `handle_ipc` of the source on the line `read_line` delivered (a trailing
`\x5Cn` is included by `read_line` when the wire had one).  `message == "stop"`
→ `cleanup()` (remove the endpoint file) and `process::exit(0)`.  Otherwise
tokenize, `try_parse_from`; on success `set_args`, set the latch, notify one
waiter; on failure do nothing (the connection is dropped, daemon lives). -/
def handle_ipc (st : DaemonState) (message : String) : IpcStep :=
  if message = "stop" then
    { state := { st with socketExists := false }, exited := some 0, notified := 0 }
  else
    match try_parse_from (tokenize message) with
    | some upd =>
      { state := { st with args := set_args st.args upd, flag := true },
        exited := none, notified := 1 }
    | none => { state := st, exited := none, notified := 0 }

/-- The listener loop of `listen_for_ipc` over a finite connection schedule:
connections are accepted sequentially, each fully handled before the next;
a `process::exit` inside `handle_ipc` ends the process (remaining messages
are never read). -/
def runDaemon (st : DaemonState) : List String → DaemonState × Option ℕ
  | [] => (st, none)
  | m :: ms =>
    let step := handle_ipc st m
    match step.exited with
    | some code => (step.state, some code)
    | none => runDaemon step.state ms

/-- A `WlBuffer` produced by `create_buffer`, identified by the parameters it
was built from (the pool buffer's pixel content is a pure function of these;
the claims below concern buffer identity and dimensions, not pixels). -/
structure Buffer where
  alpha : ℚ
  radius : ℕ
  width : ℕ
  height : ℕ
deriving DecidableEq, Repr

/-- `create_buffer(alpha, radius, qh, width, height, shm)` of the source, as
the descriptor of the buffer it returns. -/
def create_buffer (alpha : ℚ) (radius width height : ℕ) : Buffer :=
  { alpha := alpha, radius := radius, width := width, height := height }

/-- `DimlandView` of the source.  `viewport` and `layer` are the protocol
object identities (opaque handles); `viewportDest` records the last
`viewport.set_destination` call; `output` is the output identity the view was
created for. -/
structure DimlandView where
  first_configure : Bool
  width : ℕ
  height : ℕ
  buffer : Buffer
  viewport : ℕ
  viewportDest : Option (ℕ × ℕ)
  layer : ℕ
  output : ℕ
deriving DecidableEq, Repr

/-- Protocol effect of one `configure` event on the view it addresses. -/
structure ConfigureEffect where
  view : DimlandView
  /-- `some b` exactly when `draw` ran: the surface was damaged, buffer `b`
  attached, and the surface committed. -/
  attachedBuffer : Option Buffer
deriving DecidableEq, Repr

/-- `LayerShellHandler::configure` of the source, restricted to the view whose
layer matches (the handler finds it by `view.layer == layer`): store the
configure-supplied size, call `viewport.set_destination` with it, and if this
is the view's first configure, run `draw` (damage, attach the view's current
buffer, commit) and clear `first_configure`.  No buffer is created here. -/
def configureEvent (v : DimlandView) (newSize : ℕ × ℕ) : ConfigureEffect :=
  let v1 : DimlandView :=
    { v with width := newSize.1, height := newSize.2, viewportDest := some newSize }
  if v1.first_configure then
    { view := { v1 with first_configure := false }, attachedBuffer := some v1.buffer }
  else
    { view := v1, attachedBuffer := none }

/-- The view registry (`DimlandData.views`) together with a log of the
protocol objects explicitly destroyed so far: `Drop for DimlandView` calls
`viewport.destroy()` and `buffer.destroy()`. -/
structure Registry where
  views : List DimlandView
  destroyedBuffers : List Buffer
  destroyedViewports : List ℕ
deriving DecidableEq, Repr

/-- Rust dropping a `DimlandView` value: its `Drop` impl destroys the
viewport and the buffer. -/
def dropView (r : Registry) (v : DimlandView) : Registry :=
  { r with destroyedBuffers := r.destroyedBuffers ++ [v.buffer],
           destroyedViewports := r.destroyedViewports ++ [v.viewport] }

/-- `OutputHandler::new_output`: `self.views.push(self.create_view(qh, output))`. -/
def new_output (r : Registry) (v : DimlandView) : Registry :=
  { r with views := r.views ++ [v] }

/-- `OutputHandler::update_output`: build a replacement view, then overwrite
the first stored view sharing its output identity (`*view = new_view`, which
drops the old view); when no stored view matches, the fresh view itself is
dropped at the end of the function. -/
def update_output (r : Registry) (newView : DimlandView) : Registry :=
  match r.views.findIdx? (fun v => v.output == newView.output) with
  | some i =>
    match r.views.get? i with
    | some old => { dropView r old with views := r.views.set i newView }
    | none => r
  | none => dropView r newView

/-- `OutputHandler::output_destroyed`:
`self.views.retain(|v| v.output != output)` — every view whose output
identity matches is removed and dropped (its viewport and buffer destroyed),
in registry order. -/
def output_destroyed (r : Registry) (o : ℕ) : Registry :=
  { views := r.views.filter (fun v => v.output != o),
    destroyedBuffers :=
      r.destroyedBuffers ++ (r.views.filter (fun v => v.output == o)).map DimlandView.buffer,
    destroyedViewports :=
      r.destroyedViewports ++ (r.views.filter (fun v => v.output == o)).map DimlandView.viewport }

/-- The render-thread state of `_main` that the loop body touches: the warm-up
counter `i`, the `DimlandData.exit` flag (written by
`LayerShellHandler::closed`, read nowhere), and the alpha/radius copies held
in `DimlandData`. -/
structure RenderData where
  i : ℕ
  exit : Bool
  alpha : ℚ
  radius : ℕ
deriving DecidableEq, Repr

/-- `LayerShellHandler::closed` of the source: `self.exit = true;` and
nothing else. -/
def closedHandler (d : RenderData) : RenderData :=
  { d with exit := true }

/-- One iteration of `_main`'s `loop`, after the roundtrip's event handlers
(such as `closedHandler`) have already mutated `d`.  `breaksLoop` records
whether any `break`/`return` ends the loop this iteration: the source's
`loop` body contains none and never reads `d.exit`, so it is `false` on every
path.  (The process can still die here only by a panic inside `roundtrip`, or
by `process::exit` from the listener thread.) -/
def loopIteration (d : RenderData) (newArgs : DimlandArgs) :
    RenderData × Bool :=
  if d.i > 10 then
    ({ d with alpha := newArgs.alpha.getD DEFAULT_ALPHA,
              radius := newArgs.radius.getD DEFAULT_RADIUS }, false)
  else
    ({ d with i := d.i + 1 }, false)

/-- `set_args` written as one record: what each stored field becomes. -/
theorem set_args_eq (stored update : DimlandArgs) :
    set_args stored update =
      { alpha :=
          match update.alpha with
          | some a => some (if update.allow_opaque then a else if a > 9/10 then 9/10 else a)
          | none => stored.alpha,
        allow_opaque := stored.allow_opaque,
        radius :=
          match update.radius with
          | some r => some r
          | none => stored.radius,
        output := update.output, command := update.command,
        detached := update.detached } := by
  cases hu : update.alpha <;> cases hr : update.radius <;>
    simp [set_args, hu, hr]

/-- A non-`stop` message never runs `process::exit` in `handle_ipc`. -/
theorem handle_ipc_not_stop_exited (st : DaemonState) (m : String)
    (h : m ≠ "stop") : (handle_ipc st m).exited = none := by
  unfold handle_ipc
  rw [if_neg h]
  cases try_parse_from (tokenize m) <;> rfl

/-- A non-`stop` message leaves the endpoint file alone. -/
theorem handle_ipc_not_stop_socket (st : DaemonState) (m : String)
    (h : m ≠ "stop") : (handle_ipc st m).state.socketExists = st.socketExists := by
  unfold handle_ipc
  rw [if_neg h]
  cases try_parse_from (tokenize m) <;> rfl

/-- C1: when the startup probe's connect succeeds, the process sends its full
command line joined by single spaces — with NO trailing newline appended
(counterexample to the claim's "newline-terminated") — and exits 0, printing a
diagnostic but still exiting 0 when the write fails.  This theorem is the
counterexample: at a concrete command line the sent message is exactly the
space-join, which is not the newline-terminated string. -/
theorem C1_counterexample :
    (forwardToDaemon ["dimland", "--alpha", "0.2"] true).sentMessage
        = "dimland --alpha 0.2"
      ∧ "dimland --alpha 0.2" ≠ "dimland --alpha 0.2\n" :=
  ⟨rfl, by decide⟩

/-- C1 (amended): for every command line and write outcome, the forwarded
message is the space-join of the full command line (nothing appended), the
exit code is 0 on both paths, and the "Error sending IPC message" diagnostic
is printed exactly when the write fails. -/
theorem C1_forward_best_effort (argv : List String) (writeOk : Bool) :
    (forwardToDaemon argv writeOk).sentMessage = String.intercalate " " argv
      ∧ (forwardToDaemon argv writeOk).exitCode = 0
      ∧ (forwardToDaemon argv writeOk).diagnostic
          = (if writeOk then none else some "Error sending IPC message") :=
  ⟨rfl, rfl, rfl⟩

/-- C2: reading the exact line `stop` removes the endpoint socket file and
terminates the process with exit code 0, regardless of the (non-`stop`)
messages — malformed or well-formed — handled on earlier connections. -/
theorem C2_stop_terminates (st : DaemonState) (pre : List String)
    (h : ∀ m ∈ pre, m ≠ "stop") :
    (runDaemon st (pre ++ ["stop"])).2 = some 0
      ∧ (runDaemon st (pre ++ ["stop"])).1.socketExists = false := by
  induction pre generalizing st with
  | nil =>
    constructor <;> rfl
  | cons m ms ih =>
    have hm : m ≠ "stop" := h m (List.mem_cons_self m ms)
    have hrest : ∀ x ∈ ms, x ≠ "stop" := fun x hx => h x (List.mem_cons_of_mem m hx)
    have hstep : (handle_ipc st m).exited = none := handle_ipc_not_stop_exited st m hm
    simp only [List.cons_append, runDaemon, hstep]
    exact ih (handle_ipc st m).state hrest

/-- C2 witness: after two malformed messages, `stop` still exits 0 with the
socket file removed. -/
theorem C2_stop_terminates_witness :
    (runDaemon ⟨emptyUpdate, false, true⟩
        (["dimland --bogus", "x y z"] ++ ["stop"])).2 = some 0
      ∧ (runDaemon ⟨emptyUpdate, false, true⟩
          (["dimland --bogus", "x y z"] ++ ["stop"])).1.socketExists = false :=
  C2_stop_terminates ⟨emptyUpdate, false, true⟩ ["dimland --bogus", "x y z"]
    (by decide)

/-- C3: `set_args` overwrites exactly the fields present in the update —
`alpha`/`radius` merge presence-based (absent keeps the stored value, present
stores the incoming value, alpha through the clamp), while `output`,
`command`, `detached` are always replaced; and on the spec's concrete
instance, stored alpha 1/2 radius 0 updated with only alpha 1/5 yields
alpha 1/5 with radius 0 surviving. -/
theorem C3_merge_semantics (stored update : DimlandArgs) :
    (update.alpha = none → (set_args stored update).alpha = stored.alpha)
      ∧ (∀ a, update.alpha = some a → (set_args stored update).alpha
          = some (if update.allow_opaque then a else if a > 9/10 then 9/10 else a))
      ∧ (update.radius = none → (set_args stored update).radius = stored.radius)
      ∧ (∀ r, update.radius = some r → (set_args stored update).radius = some r)
      ∧ (set_args stored update).output = update.output
      ∧ (set_args stored update).command = update.command
      ∧ (set_args stored update).detached = update.detached
      ∧ set_args
          { alpha := some (1/2), allow_opaque := false, radius := some 0,
            output := none, command := none, detached := false }
          { alpha := some (1/5), allow_opaque := false, radius := none,
            output := none, command := none, detached := false }
        = { alpha := some (1/5), allow_opaque := false, radius := some 0,
            output := none, command := none, detached := false } := by
  refine ⟨fun h => ?_, fun a h => ?_, fun h => ?_, fun r h => ?_, ?_, ?_, ?_, ?_⟩
  · rw [set_args_eq, h]
  · rw [set_args_eq, h]
  · rw [set_args_eq, h]
  · rw [set_args_eq, h]
  · rw [set_args_eq]
  · rw [set_args_eq]
  · rw [set_args_eq]
  · rw [set_args_eq]
    norm_num

/-- C3 witness: a concrete update with `radius` absent keeps the stored
radius, and one with `radius` present overwrites it. -/
theorem C3_merge_semantics_witness :
    (set_args initialArgs { emptyUpdate with output := some "DP-1" }).radius
        = initialArgs.radius
      ∧ (set_args emptyUpdate { emptyUpdate with radius := some 7 }).radius
        = some 7 :=
  ⟨(C3_merge_semantics initialArgs { emptyUpdate with output := some "DP-1" }).2.2.1 rfl,
    (C3_merge_semantics emptyUpdate { emptyUpdate with radius := some 7 }).2.2.2.1 7 rfl⟩

/-- C4: for an update with `alpha` present, the stored alpha is
`min alpha 0.9` when the opaque-override flag is unset, and the given alpha
unmodified when it is set. -/
theorem C4_alpha_clamp (stored update : DimlandArgs) (a : ℚ)
    (h : update.alpha = some a) :
    (update.allow_opaque = false
        → (set_args stored update).alpha = some (min a (9/10)))
      ∧ (update.allow_opaque = true
        → (set_args stored update).alpha = some a) := by
  constructor <;> intro hflag <;> rw [set_args_eq, h, hflag]
  · show some (if (false : Bool) then a else if a > 9/10 then 9/10 else a)
        = some (min a (9/10))
    rw [if_neg Bool.false_ne_true]
    rcases le_or_lt a (9/10) with hle | hlt
    · rw [if_neg (not_lt.mpr hle), min_eq_left hle]
    · rw [if_pos hlt, min_eq_right hlt.le]
  · show some (if (true : Bool) then a else if a > 9/10 then 9/10 else a) = some a
    rw [if_pos rfl]

/-- C4 witness: alpha 1.0 without the override stores `min 1 0.9`; alpha 1.0
with the override stores 1.0. -/
theorem C4_alpha_clamp_witness :
    (set_args emptyUpdate { emptyUpdate with alpha := some 1 }).alpha
        = some (min 1 (9/10))
      ∧ (set_args emptyUpdate
          { emptyUpdate with alpha := some 1, allow_opaque := true }).alpha
        = some 1 :=
  ⟨(C4_alpha_clamp emptyUpdate { emptyUpdate with alpha := some 1 } 1 rfl).1 rfl,
    (C4_alpha_clamp emptyUpdate
      { emptyUpdate with alpha := some 1, allow_opaque := true } 1 rfl).2 rfl⟩

/-- C5: a non-`stop` message that fails to parse is dropped — store
unchanged, latch untouched, nobody notified, daemon still running — while a
successful parse merges the update into the store, sets the latch, and
notifies exactly one waiter. -/
theorem C5_parse_failure_dropped (st : DaemonState) (msg : String)
    (hmsg : msg ≠ "stop") :
    (try_parse_from (tokenize msg) = none
        → handle_ipc st msg = { state := st, exited := none, notified := 0 })
      ∧ (∀ upd, try_parse_from (tokenize msg) = some upd
        → handle_ipc st msg =
            { state := { st with args := set_args st.args upd, flag := true },
              exited := none, notified := 1 }) := by
  constructor
  · intro hp
    unfold handle_ipc
    rw [if_neg hmsg, hp]
  · intro upd hp
    unfold handle_ipc
    rw [if_neg hmsg, hp]

/-- C5 witness: the unparseable message `dimland --bogus` leaves a concrete
daemon state exactly as it was. -/
theorem C5_parse_failure_dropped_witness :
    handle_ipc ⟨emptyUpdate, false, true⟩ "dimland --bogus"
      = { state := ⟨emptyUpdate, false, true⟩, exited := none, notified := 0 } :=
  (C5_parse_failure_dropped ⟨emptyUpdate, false, true⟩ "dimland --bogus"
    (by decide)).1 (by decide)

/-- A concrete view on output 0, as `create_view` leaves it: buffer built at
the output-info size 800×600, first configure still pending. -/
def view0 : DimlandView :=
  { first_configure := true, width := 0, height := 0,
    buffer := create_buffer 1 0 800 600, viewport := 7, viewportDest := none,
    layer := 3, output := 0 }

/-- C6: on the first configure event the stored size and viewport destination
are updated and a buffer is attached and committed — but the buffer is NOT
(re)built at the configure-supplied size: it is the view's existing buffer.
This theorem is the counterexample: configuring `view0` (buffer built at
800×600) with size 1024×768 attaches the old 800-wide buffer, not one built
at 1024. -/
theorem C6_counterexample :
    (configureEvent view0 (1024, 768)).attachedBuffer
        = some (create_buffer 1 0 800 600)
      ∧ (create_buffer 1 0 800 600).width = 800
      ∧ (800 : ℕ) ≠ 1024 :=
  ⟨rfl, rfl, by decide⟩

/-- C6 (amended): every configure event stores the configure-supplied
width/height and updates the viewport destination; on a view's first
configure the view's existing buffer (built earlier, at view creation or
rerender) is attached and committed and the pending-first-configure state is
cleared; on every later configure no buffer is attached and nothing is
committed. -/
theorem C6_configure_behavior (v : DimlandView) (s : ℕ × ℕ) :
    (v.first_configure = true → configureEvent v s =
        { view := { v with width := s.1, height := s.2,
                           viewportDest := some s, first_configure := false },
          attachedBuffer := some v.buffer })
      ∧ (v.first_configure = false → configureEvent v s =
        { view := { v with width := s.1, height := s.2, viewportDest := some s },
          attachedBuffer := none }) := by
  constructor <;> intro h <;> simp [configureEvent, h]

/-- C6 witness: the amended behavior at `view0` and size 1024×768. -/
theorem C6_configure_behavior_witness :
    configureEvent view0 (1024, 768) =
      { view := { view0 with width := 1024, height := 768,
                             viewportDest := some (1024, 768),
                             first_configure := false },
        attachedBuffer := some view0.buffer } :=
  (C6_configure_behavior view0 (1024, 768)).1 rfl

/-- View for output 0 in the hotplug scenario. -/
def viewA : DimlandView :=
  { first_configure := true, width := 1920, height := 1080,
    buffer := create_buffer 1 0 1920 1080, viewport := 1, viewportDest := none,
    layer := 1, output := 0 }

/-- View for output 1 in the hotplug scenario. -/
def viewB : DimlandView :=
  { first_configure := true, width := 1280, height := 720,
    buffer := create_buffer 1 0 1280 720, viewport := 2, viewportDest := none,
    layer := 2, output := 1 }

/-- Replacement view for output 1 (new geometry) in the hotplug scenario. -/
def viewB2 : DimlandView :=
  { first_configure := true, width := 2560, height := 1440,
    buffer := create_buffer 1 0 2560 1440, viewport := 4, viewportDest := none,
    layer := 4, output := 1 }

/-- C7: an added output appends exactly one view; an updated output splices a
replacement view in place of the view sharing its output identity, dropping
(and thereby releasing the buffer and viewport of) the replaced view; a
removed output drops exactly the matching views, releasing each one's buffer
and viewport; and the add-A/add-B/remove-A/update-B scenario ends with one
view (the new B view) and the old buffers released. -/
theorem C7_output_hotplug (r : Registry) (v nv : DimlandView) (o : ℕ)
    (i : ℕ) (old : DimlandView) :
    new_output r v = { r with views := r.views ++ [v] }
      ∧ (r.views.findIdx? (fun w => w.output == nv.output) = some i
          → r.views.get? i = some old
          → update_output r nv =
            { views := r.views.set i nv,
              destroyedBuffers := r.destroyedBuffers ++ [old.buffer],
              destroyedViewports := r.destroyedViewports ++ [old.viewport] })
      ∧ output_destroyed r o =
          { views := r.views.filter (fun w => w.output != o),
            destroyedBuffers := r.destroyedBuffers
              ++ (r.views.filter (fun w => w.output == o)).map DimlandView.buffer,
            destroyedViewports := r.destroyedViewports
              ++ (r.views.filter (fun w => w.output == o)).map DimlandView.viewport }
      ∧ (new_output ⟨[], [], []⟩ viewA).views.length = 1
      ∧ (new_output (new_output ⟨[], [], []⟩ viewA) viewB).views.length = 2
      ∧ (output_destroyed (new_output (new_output ⟨[], [], []⟩ viewA) viewB) 0).views
          = [viewB]
      ∧ (update_output
            (output_destroyed (new_output (new_output ⟨[], [], []⟩ viewA) viewB) 0)
            viewB2).views = [viewB2]
      ∧ (update_output
            (output_destroyed (new_output (new_output ⟨[], [], []⟩ viewA) viewB) 0)
            viewB2).destroyedBuffers = [viewA.buffer, viewB.buffer]
      ∧ (update_output
            (output_destroyed (new_output (new_output ⟨[], [], []⟩ viewA) viewB) 0)
            viewB2).destroyedViewports = [viewA.viewport, viewB.viewport] := by
  refine ⟨rfl, fun h1 h2 => ?_, rfl, rfl, rfl, rfl, rfl, rfl, rfl⟩
  simp only [update_output, h1, h2, dropView]

/-- C7 witness: updating output 1 in a one-view registry replaces the view in
place and releases the old view's buffer and viewport. -/
theorem C7_output_hotplug_witness :
    update_output ⟨[viewB], [], []⟩ viewB2 =
      { views := [viewB].set 0 viewB2,
        destroyedBuffers := ([] : List Buffer) ++ [viewB.buffer],
        destroyedViewports := ([] : List ℕ) ++ [viewB.viewport] } :=
  (C7_output_hotplug ⟨[viewB], [], []⟩ viewA viewB2 0 0 viewB).2.1 rfl rfl

/-- C8 names the spec's exit condition: the render loop (and process)
terminates when the compositor reports the session closed or when `stop`
arrives.  The `stop` half holds (`process::exit(0)` in the listener thread,
see `handle_ipc`), but the session-closed half is a code bug:
`LayerShellHandler::closed` only sets `DimlandData.exit`, and `_main`'s
`loop` never reads that flag and contains no `break` — so after a closed
event the loop keeps iterating.  This theorem evaluates the loop at the
failing state: with `exit` just set by the closed handler, the next iteration
still does not break. -/
theorem C8_loop_never_reads_exit :
    (closedHandler { i := 0, exit := false, alpha := 1, radius := 0 }).exit = true
      ∧ (loopIteration (closedHandler { i := 0, exit := false, alpha := 1, radius := 0 })
          emptyUpdate).2 = false
      ∧ (loopIteration { i := 11, exit := true, alpha := 1, radius := 0 }
          emptyUpdate).2 = false :=
  ⟨rfl, rfl, rfl⟩

/-- C9: the endpoint path is `XDG_RUNTIME_DIR` + `/dimland.sock`, but when
the variable is absent there is no fallback: `get_socket_path`'s `expect`
terminates the process.  This theorem is the counterexample: with the
variable absent the result is the panic, not a path under a temp
directory. -/
theorem C9_counterexample :
    get_socket_path none = Except.error "XDG_RUNTIME_DIR not set" :=
  rfl

/-- C9 (amended): the endpoint path is `${XDG_RUNTIME_DIR}/dimland.sock`
derived from the per-user runtime directory variable; when the variable is
absent the process fails with the diagnostic `XDG_RUNTIME_DIR not set`
instead of falling back to a fixed temp-directory path. -/
theorem C9_socket_path (dir : String) :
    get_socket_path (some dir) = Except.ok (dir ++ "/dimland.sock")
      ∧ get_socket_path none = Except.error "XDG_RUNTIME_DIR not set" :=
  ⟨rfl, rfl⟩

/-- C10: the stop check is an exact, untrimmed comparison: the four-byte
message `stop` (no trailing newline) terminates the daemon with the endpoint
removed, while the newline-terminated line `stop\x5Cn` is instead tokenized
and parsed — clap consumes the `stop` token as the program name — yielding
the empty update, which keeps alpha/radius, resets output/command/detached,
and sets the latch with one waiter notified instead of stopping. -/
theorem C10_stop_requires_exact_match (st : DaemonState) :
    handle_ipc st "stop" =
        { state := { st with socketExists := false }, exited := some 0, notified := 0 }
      ∧ try_parse_from (tokenize "stop\n") = some emptyUpdate
      ∧ handle_ipc st "stop\n" =
        { state :=
            { st with
              args := { st.args with output := none, command := none, detached := false },
              flag := true },
          exited := none, notified := 1 } := by
  have hparse : try_parse_from (tokenize "stop\n") = some emptyUpdate := by decide
  have hne : ("stop\n" : String) ≠ "stop" := by decide
  refine ⟨by unfold handle_ipc; rw [if_pos rfl], hparse, ?_⟩
  have hset : set_args st.args emptyUpdate
      = { st.args with output := none, command := none, detached := false } := by
    rw [set_args_eq]
    rfl
  unfold handle_ipc
  rw [if_neg hne, hparse]
  show ({ state := { st with args := set_args st.args emptyUpdate, flag := true },
          exited := none, notified := 1 } : IpcStep) = _
  rw [hset]

end Dimland
